import Mathlib

/-!
Shallow embedding of the proxify reconciliation engine.

Sources embedded:
- docker.ts: container metadata helpers (getDnsName, getAppName,
  isIxAppContainer, prohibitedNetworkMode, hasOpenPort, getOpenPorts).
- index.ts: selectAppContainer and proxyApp (automatic target selection and
  override handling).
- npm.ts: NPMServer token lifecycle (isTokenValid, ensureValidToken,
  refreshToken, refreshExistingToken, createToken) and createProxyHost.

HTTP calls are modelled by passing the outcome of each call (a delivered
response with a status code, or no response at all) as an explicit argument;
the mutable NPMServer object is modelled by explicit state passing.
-/

/-- JS `s.startsWith(pre)` (and the anchored-at-start regex tests), stated
character-wise so that it evaluates definitionally.  (The library function
`String.startsWith` has the same semantics but is defined by well-founded
recursion over byte positions and does not reduce.) -/
def strStartsWith (s pre : String) : Bool :=
  pre.toList.isPrefixOf s.toList

/-- Drop the first `n` characters of a string (JS `slice`, and what the
anchored regex replaces leave behind), character-wise. -/
def strDrop (s : String) (n : Nat) : String :=
  String.mk (s.toList.drop n)

/-- Drop the last `n` characters of a string, character-wise. -/
def strDropRight (s : String) (n : Nat) : String :=
  String.mk (s.toList.take (s.toList.length - n))

/-- JS `s.split(sep)` for a one-character separator, character-wise.
`[[]]` on the empty string, like JS `"".split(":") == [""]`. -/
def splitOnChar (sep : Char) : List Char → List (List Char)
  | [] => [[]]
  | c :: rest =>
    if c == sep then
      [] :: splitOnChar sep rest
    else
      match splitOnChar sep rest with
      | [] => [[c]]
      | g :: gs => (c :: g) :: gs

/-- One entry of `container.Ports`; only `PrivatePort` is read by the code,
so a port entry is its private port number. -/
abbrev PortNumber := Nat

/-- Shallow embedding of the fields of `Docker.ContainerInfo` the program
reads: `Id`, `Names`, the two compose labels, `HostConfig.NetworkMode` and
`Ports` (which dockerode may leave undefined, hence `Option`). -/
structure ContainerInfo where
  Id : String
  Names : List String
  /-- `Labels["com.docker.compose.service"]` -/
  serviceLabel : String
  /-- `Labels["com.docker.compose.project"]` -/
  projectLabel : String
  /-- `HostConfig.NetworkMode` -/
  NetworkMode : String
  /-- `Ports`, as the list of `PrivatePort` fields; `none` models an
  undefined/null `Ports` array. -/
  Ports : Option (List PortNumber)
  deriving DecidableEq

/-- docker.ts `getDnsName`: service label, project label, cluster suffix. -/
def getDnsName (container : ContainerInfo) : String :=
  container.serviceLabel ++ "." ++ container.projectLabel ++ ".svc.cluster.local"

/-- docker.ts `getAppName`: project label with a leading "ix-" stripped
(the anchored regex replace removes at most one occurrence, at the start). -/
def getAppName (container : ContainerInfo) : String :=
  if strStartsWith container.projectLabel "ix-" then
    strDrop container.projectLabel 3
  else
    container.projectLabel

/-- docker.ts `isIxAppContainer`. -/
def isIxAppContainer (container : ContainerInfo) : Bool :=
  strStartsWith container.projectLabel "ix-"

/-- docker.ts `prohibitedNetworkMode`. -/
def prohibitedNetworkMode (container : ContainerInfo) : Bool :=
  container.NetworkMode == "none" || container.NetworkMode == "host" ||
    strStartsWith container.NetworkMode "container:" ||
    strStartsWith container.NetworkMode "service:"

/-- docker.ts `hasOpenPort`: false when `Ports` is undefined, otherwise
whether some entry's `PrivatePort` equals `port`. -/
def hasOpenPort (container : ContainerInfo) (port : Nat) : Bool :=
  match container.Ports with
  | none => false
  | some ports => ports.contains port

/-- docker.ts `getOpenPorts`: empty when `Ports` is undefined, otherwise the
list of `PrivatePort` fields in provider order. -/
def getOpenPorts (container : ContainerInfo) : List Nat :=
  match container.Ports with
  | none => []
  | some ports => ports

/-- The eligibility filter applied in index.ts `selectAppContainer` (and
again in the override branch of `proxyApp`): ix-app container, matching app
name, non-prohibited network mode. -/
def eligibleFor (appName : String) (container : ContainerInfo) : Bool :=
  isIxAppContainer container && getAppName container == appName &&
    !prohibitedNetworkMode container

/-- The value returned by index.ts `selectAppContainer` on success. -/
structure SelectedInfo where
  container : ContainerInfo
  port : Nat
  scheme : String
  deriving DecidableEq

/-- index.ts `selectAppContainer`: filter to eligible containers of the app;
return undefined when none remain; discard containers with no open ports;
return undefined when none remain; else pick the first container exposing
443 (https:443), else the first exposing 80 (http:80), else the first
remaining container with its first open port (http). -/
def selectAppContainer (containers : List ContainerInfo) (appName : String) :
    Option SelectedInfo :=
  let appContainers := containers.filter (eligibleFor appName)
  if appContainers.isEmpty then none
  else
    let containersWithPorts :=
      appContainers.filter (fun c => !(getOpenPorts c).isEmpty)
    if containersWithPorts.isEmpty then none
    else
      match containersWithPorts.find? (fun c => hasOpenPort c 443) with
      | some httpsContainer =>
        some { container := httpsContainer, port := 443, scheme := "https" }
      | none =>
        match containersWithPorts.find? (fun c => hasOpenPort c 80) with
        | some httpContainer =>
          some { container := httpContainer, port := 80, scheme := "http" }
        | none =>
          match containersWithPorts with
          | [] => none
          | c :: _ =>
            some { container := c, port := (getOpenPorts c).headD 0,
                   scheme := "http" }

/-- `n.replace(/^\//, "")` in the override branch of `proxyApp`: remove one
leading slash. -/
def stripLeadingSlash (n : String) : String :=
  if strStartsWith n "/" then strDrop n 1 else n

/-- Length of the maximal run of decimal digits at the end of the string. -/
def trailingDigitCount (n : String) : Nat :=
  (n.toList.reverse.takeWhile Char.isDigit).length

/-- The anchored regex replace stripping a trailing replica ordinal
(a dash followed by one or more digits at the very end of the name). -/
def stripReplicaOrdinal (n : String) : String :=
  let d := trailingDigitCount n
  if 0 < d && (n.toList.reverse.drop d).head? == some (Char.ofNat 45) then
    strDropRight n (d + 1)
  else
    n

/-- The container-name normalization used for override matching in
`proxyApp`: strip one leading slash, then any trailing replica ordinal. -/
def normalizeContainerName (n : String) : String :=
  stripReplicaOrdinal (stripLeadingSlash n)

/-- `parseInt(portStr, 10)` restricted to the shapes an override port can
take: a maximal run of leading decimal digits, `none` (NaN) when there is
none.  (Sign and leading-whitespace handling of parseInt are not modelled;
no claim depends on them.) -/
def parsePort (s : String) : Option Nat :=
  let digits := s.toList.takeWhile Char.isDigit
  if digits.isEmpty then none
  else some (digits.foldl (fun a c => a * 10 + (c.toNat - 48)) 0)

/-- The destructuring parse of an override string in `proxyApp`:
`split(':')` then take the first two pieces; the container name must be
nonempty (truthy) and the port must parse (not NaN). -/
def parseOverride (s : String) : Option (String × Nat) :=
  match splitOnChar (Char.ofNat 58) s.toList with
  | [] => none
  | [_] => none
  | containerName :: portStr :: _ =>
    if containerName.isEmpty then none
    else
      match parsePort (String.mk portStr) with
      | none => none
      | some port => some (String.mk containerName, port)

/-- The body `createProxyHost` is called with (the fields the program
fills): domain name, forward scheme, forward host, forward port and
certificate id. -/
structure ProxyHostOptions where
  domainName : String
  scheme : String
  forwardHost : String
  port : Nat
  certificateId : Nat
  deriving DecidableEq

/-- Result of one `proxyApp` run, up to the proxy-host call: either no
target was found (logged, nothing sent), or a configuration error was
thrown and caught (logged, nothing sent), or a proxy-host call is made for
the given container with the given request. -/
inductive ProxyOutcome where
  | noTarget : ProxyOutcome
  | configError : ProxyOutcome
  | proxyCall (container : ContainerInfo) (request : ProxyHostOptions) :
      ProxyOutcome
  deriving DecidableEq

/-- The `createProxyHost` request `proxyApp` constructs for a selected
container: domain `<app>.<DOMAIN_NAME or example.com>`, forward host the
container's DNS name. -/
def mkProxyRequest (appName : String) (container : ContainerInfo)
    (scheme : String) (port : Nat) (domainEnv : Option String)
    (certId : Nat) : ProxyHostOptions :=
  { domainName := appName ++ "." ++ domainEnv.getD "example.com",
    scheme := scheme,
    forwardHost := getDnsName container,
    port := port,
    certificateId := certId }

/-- The filter the override branch of `proxyApp` applies to the container
listing: eligible containers of the app having some name whose normalized
form equals `ix-<app>-<containerName>`. -/
def overrideMatches (containers : List ContainerInfo)
    (appName containerName : String) : List ContainerInfo :=
  containers.filter (fun c =>
    eligibleFor appName c &&
      c.Names.any (fun n =>
        normalizeContainerName n == "ix-" ++ appName ++ "-" ++ containerName))

/-- index.ts `proxyApp`, for one application, given the container listing,
the optional `APP_OVERRIDE_<APP>` value, `DOMAIN_NAME` and the certificate
id.  The override branch parses `<container-name>:<port>`, filters the
eligible containers of the app to those with a name whose normalized form
equals `ix-<app>-<containerName>`, and demands exactly one match; scheme is
https exactly when the override port is 443.  Without an override the
result follows `selectAppContainer`.  Thrown errors are caught inside
`proxyApp` (logged, no call made). -/
def proxyApp (containers : List ContainerInfo) (appName : String)
    (override : Option String) (domainEnv : Option String) (certId : Nat) :
    ProxyOutcome :=
  match override with
  | some ov =>
    match parseOverride ov with
    | none => .configError
    | some (containerName, port) =>
      match overrideMatches containers appName containerName with
      | [c] =>
        let scheme := if port == 443 then "https" else "http"
        .proxyCall c (mkProxyRequest appName c scheme port domainEnv certId)
      | _ => .configError
  | none =>
    match selectAppContainer containers appName with
    | none => .noTarget
    | some sel =>
      .proxyCall sel.container
        (mkProxyRequest appName sel.container sel.scheme sel.port domainEnv
          certId)

/-- npm.ts `TokenResponse`, with the `expires` date string already parsed
to a millisecond timestamp (the program immediately converts it with
`new Date(...)` and only ever reads `getTime()`). -/
structure TokenResponse where
  token : String
  expires : Int
  deriving DecidableEq

/-- npm.ts `TokenData`: the stored token and its expiry timestamp
(milliseconds, `Date.getTime()`). -/
structure TokenData where
  token : String
  expires : Int
  deriving DecidableEq

/-- The mutable state of an `NPMServer` instance: the current token slot
and the optional identity/secret credentials (the `npmUrl` string plays no
part in the control flow and is omitted). -/
structure NPMServer where
  tokenData : Option TokenData
  credentials : Option (String × String)
  deriving DecidableEq

/-- Outcome of one HTTP call as the code distinguishes them: a delivered
response with a status code and a body (whether it arrived via the resolved
promise or via an axios error carrying `error.response`), or no response at
all (`error.request` only). -/
inductive HttpResult (α : Type) where
  | response (status : Nat) (data : α) : HttpResult α
  | noResponse : HttpResult α
  deriving DecidableEq

/-- The errors npm.ts throws, keyed by class; token and proxy-host errors
optionally carry the offending status code. -/
inductive NPMError where
  | tokenError (status : Option Nat) : NPMError
  | proxyHostError (status : Option Nat) : NPMError
  | networkError : NPMError
  deriving DecidableEq

namespace NPMServer

/-- Truthiness of `this.tokenData?.token`: a token slot is present and its
string is nonempty. -/
def hasToken (s : NPMServer) : Bool :=
  match s.tokenData with
  | none => false
  | some td => !td.token.isEmpty

/-- npm.ts `NPMServer.isTokenValid`: false with no token slot, otherwise
the expiry must be strictly later than now plus a 5-minute buffer
(300000 ms). -/
def isTokenValid (s : NPMServer) (now : Int) : Bool :=
  match s.tokenData with
  | none => false
  | some td => now + 5 * 60 * 1000 < td.expires

/-- npm.ts `NPMServer.createToken`: fails without credentials; given the
outcome of `POST /api/tokens`, status 200/201 returns the body, any other
status is a token error carrying the status, no response is a network
error.  It does not touch `this.tokenData`. -/
def createToken (s : NPMServer) (r : HttpResult TokenResponse) :
    Except NPMError TokenResponse :=
  match s.credentials with
  | none => .error (.tokenError none)
  | some _ =>
    match r with
    | .response status data =>
      if status == 200 || status == 201 then .ok data
      else .error (.tokenError (some status))
    | .noResponse => .error .networkError

/-- npm.ts `NPMServer.refreshExistingToken`: fails when no current token
string is held; given the outcome of `GET /api/tokens` (bearer: current
token), status 200/201 installs the returned token and expiry into
`this.tokenData` and returns the body; any other status is a token error
carrying the status, no response is a network error — in both cases
`this.tokenData` is untouched (the assignment sits in the success branch
only). -/
def refreshExistingToken (s : NPMServer) (r : HttpResult TokenResponse) :
    NPMServer × Except NPMError TokenResponse :=
  if !hasToken s then (s, .error (.tokenError none))
  else
    match r with
    | .response status data =>
      if status == 200 || status == 201 then
        ({ s with tokenData := some { token := data.token,
                                      expires := data.expires } }, .ok data)
      else (s, .error (.tokenError (some status)))
    | .noResponse => (s, .error .networkError)

/-- The fallback half of npm.ts `NPMServer.refreshToken`: with credentials,
call `createToken` and on success install the returned token; without
credentials fail with the "no token available" token error. -/
def refreshTokenFallback (s : NPMServer) (rCreate : HttpResult TokenResponse) :
    NPMServer × Except NPMError TokenResponse :=
  match s.credentials with
  | some _ =>
    match createToken s rCreate with
    | .ok data =>
      ({ s with tokenData := some { token := data.token,
                                    expires := data.expires } }, .ok data)
    | .error e => (s, .error e)
  | none => (s, .error (.tokenError none))

/-- npm.ts `NPMServer.refreshToken`: when a current token string exists,
try `refreshExistingToken` first and return its result on success; on any
exception from it fall through to the credentials fallback; with no current
token go straight to the fallback.  `rRefresh` and `rCreate` are the
outcomes of the two HTTP calls, would they be made. -/
def refreshToken (s : NPMServer) (rRefresh rCreate : HttpResult TokenResponse) :
    NPMServer × Except NPMError TokenResponse :=
  if hasToken s then
    match refreshExistingToken s rRefresh with
    | (s1, .ok data) => (s1, .ok data)
    | (s1, .error _) => refreshTokenFallback s1 rCreate
  else refreshTokenFallback s rCreate

/-- npm.ts `NPMServer.ensureValidToken`: no-op when the current token is
valid at `now`, otherwise delegate to `refreshToken` (whose error, if any,
propagates). -/
def ensureValidToken (s : NPMServer) (now : Int)
    (rRefresh rCreate : HttpResult TokenResponse) :
    NPMServer × Except NPMError Unit :=
  if isTokenValid s now then (s, .ok ())
  else
    match refreshToken s rRefresh rCreate with
    | (s1, .ok _) => (s1, .ok ())
    | (s1, .error e) => (s1, .error e)

/-- npm.ts `NPMServer.createProxyHost`: first `ensureValidToken` (its error
propagates); then, given the outcome of `POST /api/nginx/proxy-hosts`,
status 200/201 succeeds, status 400 is logged as "may already exist" and
also succeeds, any other status is a proxy-host error carrying the status,
and no response is a network error. -/
def createProxyHost (s : NPMServer) (now : Int)
    (rRefresh rCreate : HttpResult TokenResponse)
    (rProxy : HttpResult Unit) : NPMServer × Except NPMError Unit :=
  match ensureValidToken s now rRefresh rCreate with
  | (s1, .error e) => (s1, .error e)
  | (s1, .ok _) =>
    match rProxy with
    | .response status _ =>
      if status == 200 || status == 201 then (s1, .ok ())
      else if status == 400 then (s1, .ok ())
      else (s1, .error (.proxyHostError (some status)))
    | .noResponse => (s1, .error .networkError)

end NPMServer

/-- The containers `selectAppContainer` actually chooses from: the eligible
containers of the app, with those exposing no ports discarded.  Filtering
preserves provider-reported order. -/
def eligibleWithPorts (containers : List ContainerInfo) (appName : String) :
    List ContainerInfo :=
  (containers.filter (eligibleFor appName)).filter
    (fun c => !(getOpenPorts c).isEmpty)

theorem selectAppContainer_eq_match (cs : List ContainerInfo) (app : String) :
    selectAppContainer cs app =
      match (eligibleWithPorts cs app).find? (fun c => hasOpenPort c 443) with
      | some c => some { container := c, port := 443, scheme := "https" }
      | none =>
        match (eligibleWithPorts cs app).find? (fun c => hasOpenPort c 80) with
        | some c => some { container := c, port := 80, scheme := "http" }
        | none =>
          match eligibleWithPorts cs app with
          | [] => none
          | c :: _ =>
            some { container := c, port := (getOpenPorts c).headD 0,
                   scheme := "http" } := by
  unfold selectAppContainer eligibleWithPorts
  cases h1 : (cs.filter (eligibleFor app)).isEmpty with
  | true =>
    rw [List.isEmpty_iff] at h1
    simp [h1]
  | false =>
    cases h2 : ((cs.filter (eligibleFor app)).filter
        (fun c => !(getOpenPorts c).isEmpty)).isEmpty with
    | true =>
      rw [List.isEmpty_iff] at h2
      simp only [h1, h2, Bool.false_eq_true, if_false, List.find?_nil,
        List.isEmpty_nil, if_true]
    | false =>
      simp only [h1, h2, Bool.false_eq_true, if_false]

theorem mem_eligibleWithPorts {cs : List ContainerInfo} {app : String}
    {c : ContainerInfo} (h : c ∈ eligibleWithPorts cs app) :
    eligibleFor app c = true ∧ (getOpenPorts c).isEmpty = false := by
  unfold eligibleWithPorts at h
  rw [List.mem_filter] at h
  obtain ⟨h1, h2⟩ := h
  rw [List.mem_filter] at h1
  exact ⟨h1.2, by simpa using h2⟩

theorem selectAppContainer_container_mem {cs : List ContainerInfo}
    {app : String} {t : SelectedInfo} (h : selectAppContainer cs app = some t) :
    t.container ∈ eligibleWithPorts cs app := by
  rw [selectAppContainer_eq_match] at h
  cases h443 : (eligibleWithPorts cs app).find? (fun c => hasOpenPort c 443) with
  | some c =>
    rw [h443] at h
    cases h
    exact List.mem_of_find?_eq_some h443
  | none =>
    rw [h443] at h
    cases h80 : (eligibleWithPorts cs app).find? (fun c => hasOpenPort c 80) with
    | some c =>
      rw [h80] at h
      cases h
      exact List.mem_of_find?_eq_some h80
    | none =>
      rw [h80] at h
      cases hl : eligibleWithPorts cs app with
      | nil => rw [hl] at h; cases h
      | cons c rest =>
        rw [hl] at h
        cases h
        exact hl ▸ List.mem_cons_self c rest

theorem hasOpenPort_iff_mem (c : ContainerInfo) (n : Nat) :
    hasOpenPort c n = true ↔ n ∈ getOpenPorts c := by
  cases hp : c.Ports <;>
    simp [hasOpenPort, getOpenPorts, hp, List.contains, List.elem_iff]

/-- C1: Automatic target selection (no override).  With
`eligibleWithPorts` the eligible containers of the app after discarding
those exposing no ports (in provider order): if no container remains the
result is no target and `proxyApp` makes no proxy-host call; if some
remaining container exposes 443, the first such is chosen with https:443;
else if some exposes 80, the first such is chosen with http:80; else the
first remaining container is chosen with scheme http and its first exposed
port. -/
theorem C1_automatic_selection (cs : List ContainerInfo) (app : String)
    (dn : Option String) (cid : Nat) :
    (eligibleWithPorts cs app = [] →
      selectAppContainer cs app = none ∧
        proxyApp cs app none dn cid = ProxyOutcome.noTarget) ∧
    (∀ c, (eligibleWithPorts cs app).find? (fun c => hasOpenPort c 443) =
        some c →
      selectAppContainer cs app =
        some { container := c, port := 443, scheme := "https" }) ∧
    ((eligibleWithPorts cs app).find? (fun c => hasOpenPort c 443) = none →
      ∀ c, (eligibleWithPorts cs app).find? (fun c => hasOpenPort c 80) =
          some c →
      selectAppContainer cs app =
        some { container := c, port := 80, scheme := "http" }) ∧
    ((eligibleWithPorts cs app).find? (fun c => hasOpenPort c 443) = none →
      (eligibleWithPorts cs app).find? (fun c => hasOpenPort c 80) = none →
      ∀ c rest, eligibleWithPorts cs app = c :: rest →
      ∀ p ps, getOpenPorts c = p :: ps →
      selectAppContainer cs app =
        some { container := c, port := p, scheme := "http" }) := by
  refine ⟨?_, ?_, ?_, ?_⟩
  · intro hnil
    have hsel : selectAppContainer cs app = none := by
      rw [selectAppContainer_eq_match, hnil]
      simp
    refine ⟨hsel, ?_⟩
    unfold proxyApp
    rw [hsel]
  · intro c h443
    rw [selectAppContainer_eq_match, h443]
  · intro h443 c h80
    rw [selectAppContainer_eq_match, h443, h80]
  · intro h443 h80 c rest hl p ps hp
    rw [selectAppContainer_eq_match, h443, h80, hl]
    show (some { container := c, port := (getOpenPorts c).headD 0,
                 scheme := "http" } : Option SelectedInfo) =
      some { container := c, port := p, scheme := "http" }
    rw [hp]
    rfl

/-- C9: Invariant of automatic selection: whenever `selectAppContainer`
produces a target, the chosen port is among the chosen container's own
exposed ports, and the scheme is https exactly when the chosen port is 443
(the fallback branch can never land on 443, since a container exposing 443
would have been taken by the https branch). -/
theorem C9_selection_invariant (cs : List ContainerInfo) (app : String)
    (t : SelectedInfo) (h : selectAppContainer cs app = some t) :
    t.port ∈ getOpenPorts t.container ∧ (t.scheme = "https" ↔ t.port = 443) := by
  rw [selectAppContainer_eq_match] at h
  cases h443 : (eligibleWithPorts cs app).find? (fun c => hasOpenPort c 443) with
  | some c =>
    rw [h443] at h
    cases h
    have hsat := List.find?_some h443
    have hmem : (443 : Nat) ∈ getOpenPorts c :=
      (hasOpenPort_iff_mem c 443).mp (by simpa using hsat)
    exact ⟨hmem, by simp⟩
  | none =>
    rw [h443] at h
    have hnot443 : ∀ x ∈ eligibleWithPorts cs app, hasOpenPort x 443 = false := by
      intro x hx
      have := List.find?_eq_none.mp h443 x hx
      simpa using this
    cases h80 : (eligibleWithPorts cs app).find? (fun c => hasOpenPort c 80) with
    | some c =>
      rw [h80] at h
      cases h
      have hsat := List.find?_some h80
      have hmem : (80 : Nat) ∈ getOpenPorts c :=
        (hasOpenPort_iff_mem c 80).mp (by simpa using hsat)
      exact ⟨hmem, by simp⟩
    | none =>
      rw [h80] at h
      cases hl : eligibleWithPorts cs app with
      | nil => rw [hl] at h; cases h
      | cons c rest =>
        rw [hl] at h
        have hmemc : c ∈ eligibleWithPorts cs app := by
          rw [hl]; exact List.mem_cons_self c rest
        have hports : (getOpenPorts c).isEmpty = false :=
          (mem_eligibleWithPorts hmemc).2
        obtain ⟨p, ps, hp⟩ : ∃ p ps, getOpenPorts c = p :: ps := by
          cases hpp : getOpenPorts c with
          | nil => rw [hpp] at hports; cases hports
          | cons p ps => exact ⟨p, ps, rfl⟩
        have ht : t = { container := c, port := (getOpenPorts c).headD 0,
                        scheme := "http" } := by
          cases h; rfl
        have hport : t.port = p := by rw [ht]; rw [hp]; rfl
        have hno443 : (443 : Nat) ∉ getOpenPorts c := by
          intro hmem
          have := hnot443 c hmemc
          rw [(hasOpenPort_iff_mem c 443).mpr hmem] at this
          cases this
        have hcont : t.container = c := by rw [ht]
        refine ⟨?_, ?_⟩
        · rw [hport, hcont, hp]
          exact List.mem_cons_self p ps
        · have hscheme : t.scheme = "http" := by rw [ht]
          constructor
          · intro hs
            rw [hscheme] at hs
            exact absurd hs (by decide)
          · intro hpc
            exfalso
            apply hno443
            rw [← hpc, hport, hp]
            exact List.mem_cons_self p ps

/-- C10: A container whose `Ports` array is absent is handled totally:
`hasOpenPort` is false at every port, `getOpenPorts` is empty, and such a
container can never be the one chosen by automatic selection (it is
discarded with the zero-port containers). -/
theorem C10_missing_ports_total (c : ContainerInfo) (h : c.Ports = none) :
    (∀ p, hasOpenPort c p = false) ∧ getOpenPorts c = [] ∧
      (∀ cs app t, selectAppContainer cs app = some t →
        t.container.Ports ≠ none) := by
  refine ⟨fun p => by simp [hasOpenPort, h], by simp [getOpenPorts, h], ?_⟩
  intro cs app t hsel hnone
  have hmem := selectAppContainer_container_mem hsel
  have hports := (mem_eligibleWithPorts hmem).2
  rw [getOpenPorts, hnone] at hports
  cases hports

theorem proxyApp_override_call_eligible {cs : List ContainerInfo}
    {app ov : String} {dn : Option String} {cid : Nat} {k : ContainerInfo}
    {req : ProxyHostOptions}
    (h : proxyApp cs app (some ov) dn cid = ProxyOutcome.proxyCall k req) :
    eligibleFor app k = true := by
  simp only [proxyApp] at h
  cases hp : parseOverride ov with
  | none =>
    simp only [hp] at h
    exact ProxyOutcome.noConfusion h
  | some nmport =>
    obtain ⟨nm, port⟩ := nmport
    simp only [hp] at h
    cases hm : overrideMatches cs app nm with
    | nil =>
      simp only [hm] at h
      exact ProxyOutcome.noConfusion h
    | cons c0 tl =>
      cases tl with
      | nil =>
        simp only [hm] at h
        have hcellk : c0 = k := by
          by_contra hne
          simp only [ProxyOutcome.proxyCall.injEq] at h
          exact hne h.1
        have hmem : k ∈ overrideMatches cs app nm := by
          rw [hm, hcellk]; exact List.mem_cons_self k []
        unfold overrideMatches at hmem
        rw [List.mem_filter] at hmem
        have := hmem.2
        exact (Bool.and_eq_true_iff.mp this).1
      | cons c1 tl2 =>
        simp only [hm] at h
        exact ProxyOutcome.noConfusion h

/-- C7: A container whose network mode is none, host, or begins with
"container:" or "service:" is marked prohibited, fails the eligibility
filter for every app, and is never the container chosen by automatic
selection nor the one a configured override resolves to. -/
theorem C7_prohibited_modes_ineligible (c : ContainerInfo)
    (h : c.NetworkMode = "none" ∨ c.NetworkMode = "host" ∨
      strStartsWith c.NetworkMode "container:" = true ∨
      strStartsWith c.NetworkMode "service:" = true) :
    prohibitedNetworkMode c = true ∧
    (∀ app, eligibleFor app c = false) ∧
    (∀ cs app t, selectAppContainer cs app = some t → t.container ≠ c) ∧
    (∀ cs app ov dn cid k req,
      proxyApp cs app (some ov) dn cid = ProxyOutcome.proxyCall k req →
      k ≠ c) := by
  have hproh : prohibitedNetworkMode c = true := by
    unfold prohibitedNetworkMode
    rcases h with h | h | h | h
    · rw [h]; rfl
    · rw [h]; rfl
    · rw [h]; simp
    · rw [h]; simp
  have helig : ∀ app, eligibleFor app c = false := by
    intro app
    unfold eligibleFor
    rw [hproh]
    simp
  refine ⟨hproh, helig, ?_, ?_⟩
  · intro cs app t hsel heq
    have hmem := selectAppContainer_container_mem hsel
    have := (mem_eligibleWithPorts hmem).1
    rw [heq, helig app] at this
    cases this
  · intro cs app ov dn cid k req hcall heq
    have := proxyApp_override_call_eligible hcall
    rw [heq, helig app] at this
    cases this

/-- C2: Override selection.  When `APP_OVERRIDE_<APP>` parses as
`<containerName>:<port>`: if exactly one eligible container of the app has
a name normalizing to `ix-<app>-<containerName>`, that container is
selected at the override port — whatever ports it exposes — with scheme
https exactly when the port is 443; when the match count is not one,
`proxyApp` ends in a configuration error and makes no proxy-host call. -/
theorem C2_override_selection (cs : List ContainerInfo) (app ov nm : String)
    (port : Nat) (dn : Option String) (cid : Nat)
    (hparse : parseOverride ov = some (nm, port)) :
    (∀ c, overrideMatches cs app nm = [c] →
      proxyApp cs app (some ov) dn cid =
        ProxyOutcome.proxyCall c
          { domainName := app ++ "." ++ dn.getD "example.com",
            scheme := if port == 443 then "https" else "http",
            forwardHost := getDnsName c,
            port := port,
            certificateId := cid }) ∧
    ((overrideMatches cs app nm).length ≠ 1 →
      proxyApp cs app (some ov) dn cid = ProxyOutcome.configError) := by
  constructor
  · intro c hm
    simp only [proxyApp, hparse, hm]
    rfl
  · intro hlen
    simp only [proxyApp, hparse]
    cases hm : overrideMatches cs app nm with
    | nil => simp only [hm]
    | cons c0 tl =>
      cases tl with
      | nil =>
        exfalso
        apply hlen
        rw [hm]
        rfl
      | cons c1 tl2 => simp only [hm]

/-- The container of the end-to-end scenario: compose service label
`radarr`, project label `ix-radarr`, bridge networking, exposing only port
7878. -/
def radarrContainer : ContainerInfo :=
  { Id := "0123456789ab",
    Names := ["/ix-radarr-radarr-1"],
    serviceLabel := "radarr",
    projectLabel := "ix-radarr",
    NetworkMode := "bridge",
    Ports := some [7878] }

/-- C8: End-to-end resolution for the radarr scenario: the app name derived
from project label `ix-radarr` is `radarr`; automatic selection picks the
container with scheme http and port 7878; and the proxy-host request
carries domain `radarr.<configured domain>`, forward host
`radarr.ix-radarr.svc.cluster.local` and forward port 7878. -/
theorem C8_end_to_end_radarr (dom : String) (cid : Nat) :
    getAppName radarrContainer = "radarr" ∧
    selectAppContainer [radarrContainer] "radarr" =
      some { container := radarrContainer, port := 7878, scheme := "http" } ∧
    proxyApp [radarrContainer] "radarr" none (some dom) cid =
      ProxyOutcome.proxyCall radarrContainer
        { domainName := "radarr" ++ "." ++ dom,
          scheme := "http",
          forwardHost := "radarr.ix-radarr.svc.cluster.local",
          port := 7878,
          certificateId := cid } :=
  ⟨by decide, by decide, rfl⟩

namespace NPMServer

theorem refreshExistingToken_error_state (s : NPMServer)
    (r : HttpResult TokenResponse) (e : NPMError)
    (h : (refreshExistingToken s r).2 = Except.error e) :
    (refreshExistingToken s r).1 = s := by
  unfold refreshExistingToken
  unfold refreshExistingToken at h
  cases hT : hasToken s with
  | false => simp [hT]
  | true =>
    simp only [hT, Bool.not_true, Bool.false_eq_true, if_false] at h ⊢
    cases r with
    | noResponse => rfl
    | response status data =>
      cases hst : (status == 200 || status == 201) with
      | false => simp [hst]
      | true => simp [hst] at h

theorem refreshTokenFallback_error_state (s : NPMServer)
    (rCreate : HttpResult TokenResponse) (e : NPMError)
    (h : (refreshTokenFallback s rCreate).2 = Except.error e) :
    (refreshTokenFallback s rCreate).1 = s := by
  unfold refreshTokenFallback
  unfold refreshTokenFallback at h
  cases hc : s.credentials with
  | none => simp [hc]
  | some cr =>
    simp only [hc] at h ⊢
    cases hcr : createToken s rCreate with
    | ok data => simp [hcr] at h
    | error e2 => simp [hcr]
end NPMServer

/-- C5: Atomicity of token replacement on failure: whenever `refreshToken`
fails — refresh-existing rejected, the create-token fallback rejected, or a
network error — the stored token slot (value and expiry) is left exactly
as it was; the slot is only ever replaced whole by a successful refresh or
create call. -/
theorem C5_refresh_failure_atomic (s : NPMServer)
    (rRefresh rCreate : HttpResult TokenResponse) (e : NPMError)
    (h : (NPMServer.refreshToken s rRefresh rCreate).2 = Except.error e) :
    (NPMServer.refreshToken s rRefresh rCreate).1.tokenData = s.tokenData := by
  unfold NPMServer.refreshToken at h ⊢
  cases hT : NPMServer.hasToken s with
  | false =>
    simp only [hT, Bool.false_eq_true, if_false] at h ⊢
    rw [NPMServer.refreshTokenFallback_error_state s rCreate e h]
  | true =>
    simp only [hT, if_true] at h ⊢
    cases hre : NPMServer.refreshExistingToken s rRefresh with
    | mk s1 res =>
      cases res with
      | ok data => simp [hre] at h ⊢
      | error e1 =>
        simp only [hre] at h ⊢
        have hs1 : s1 = s := by
          have := NPMServer.refreshExistingToken_error_state s rRefresh e1
          rw [hre] at this
          exact this rfl
        rw [hs1] at h ⊢
        rw [NPMServer.refreshTokenFallback_error_state s rCreate e h]

/-- C4: `refreshToken` control flow.  With a current token string held:
a 200/201 response to the refresh-existing call installs the returned
token and expiry; when the refresh-existing call fails with any error and
an identity/secret credential pair is held, a 200/201 response to the
create-token call installs that token, while a failing create-token call
makes `refreshToken` fail with that error; with no credential pair held,
`refreshToken` fails with a token error. -/
theorem C4_refreshToken_fallback (s : NPMServer)
    (rRefresh rCreate : HttpResult TokenResponse) :
    (∀ st d, NPMServer.hasToken s = true →
      rRefresh = HttpResult.response st d → (st = 200 ∨ st = 201) →
      NPMServer.refreshToken s rRefresh rCreate =
        ({ s with tokenData := some { token := d.token,
                                      expires := d.expires } },
         Except.ok d)) ∧
    (NPMServer.hasToken s = true →
      ∀ e, (NPMServer.refreshExistingToken s rRefresh).2 = Except.error e →
      ((∀ cr, s.credentials = some cr →
        (∀ st d, rCreate = HttpResult.response st d → (st = 200 ∨ st = 201) →
          NPMServer.refreshToken s rRefresh rCreate =
            ({ s with tokenData := some { token := d.token,
                                          expires := d.expires } },
             Except.ok d)) ∧
        (∀ e2, NPMServer.createToken s rCreate = Except.error e2 →
          NPMServer.refreshToken s rRefresh rCreate =
            (s, Except.error e2))) ∧
      (s.credentials = none →
        NPMServer.refreshToken s rRefresh rCreate =
          (s, Except.error (NPMError.tokenError none))))) := by
  constructor
  · intro st d hT hr hst
    unfold NPMServer.refreshToken NPMServer.refreshExistingToken
    have hstb : (st == 200 || st == 201) = true := by
      rcases hst with h | h <;> simp [h]
    simp [hT, hr, hstb]
  · intro hT e herr
    have hfallback : NPMServer.refreshToken s rRefresh rCreate =
        NPMServer.refreshTokenFallback s rCreate := by
      unfold NPMServer.refreshToken
      simp only [hT, if_true]
      cases hre : NPMServer.refreshExistingToken s rRefresh with
      | mk s1 res =>
        cases res with
        | ok data => rw [hre] at herr; cases herr
        | error e1 =>
          have hs1 : s1 = s := by
            have := NPMServer.refreshExistingToken_error_state s rRefresh e1
            rw [hre] at this
            exact this rfl
          rw [hs1]
    constructor
    · intro cr hcr
      constructor
      · intro st d hc hst
        rw [hfallback]
        unfold NPMServer.refreshTokenFallback NPMServer.createToken
        have hstb : (st == 200 || st == 201) = true := by
          rcases hst with h | h <;> simp [h]
        simp [hcr, hc, hstb]
      · intro e2 hc2
        rw [hfallback]
        unfold NPMServer.refreshTokenFallback
        simp only [hcr, hc2]
    · intro hnone
      rw [hfallback]
      unfold NPMServer.refreshTokenFallback
      simp only [hnone]

/-- C6: Token validity boundary.  No stored token is invalid; a stored
token is valid exactly when its expiry is strictly more than 5 minutes
(300000 ms) after the current time; when valid, `ensureValidToken` is a
no-op (no refresh, state unchanged); when invalid, `ensureValidToken` is
exactly a `refreshToken` call. -/
theorem C6_validity_boundary (s : NPMServer) (now : Int)
    (rRefresh rCreate : HttpResult TokenResponse) :
    (s.tokenData = none → NPMServer.isTokenValid s now = false) ∧
    (∀ td, s.tokenData = some td →
      (NPMServer.isTokenValid s now = true ↔ now + 300000 < td.expires)) ∧
    (NPMServer.isTokenValid s now = true →
      NPMServer.ensureValidToken s now rRefresh rCreate = (s, Except.ok ())) ∧
    (NPMServer.isTokenValid s now = false →
      NPMServer.ensureValidToken s now rRefresh rCreate =
        ((NPMServer.refreshToken s rRefresh rCreate).1,
         (NPMServer.refreshToken s rRefresh rCreate).2.map (fun _ => ()))) := by
  refine ⟨?_, ?_, ?_, ?_⟩
  · intro hnone
    unfold NPMServer.isTokenValid
    rw [hnone]
  · intro td htd
    unfold NPMServer.isTokenValid
    rw [htd]
    simp only [decide_eq_true_eq]
    norm_num
  · intro hvalid
    unfold NPMServer.ensureValidToken
    simp [hvalid]
  · intro hinvalid
    unfold NPMServer.ensureValidToken
    simp only [hinvalid, Bool.false_eq_true, if_false]
    cases hrt : NPMServer.refreshToken s rRefresh rCreate with
    | mk s1 res =>
      cases res <;> simp [hrt, Except.map]

/-- C3: `createProxyHost` first runs `ensureValidToken` and propagates its
error; with a valid token ensured, a response with status 200, 201 or 400
returns normally, any other status raises a proxy-host error carrying that
status, and no response raises a network error. -/
theorem C3_createProxyHost_statuses (s : NPMServer) (now : Int)
    (rRefresh rCreate : HttpResult TokenResponse) (rProxy : HttpResult Unit) :
    (∀ e, (NPMServer.ensureValidToken s now rRefresh rCreate).2 =
        Except.error e →
      NPMServer.createProxyHost s now rRefresh rCreate rProxy =
        ((NPMServer.ensureValidToken s now rRefresh rCreate).1,
         Except.error e)) ∧
    ((NPMServer.ensureValidToken s now rRefresh rCreate).2 = Except.ok () →
      (∀ st, rProxy = HttpResult.response st () →
        ((st = 200 ∨ st = 201 ∨ st = 400) →
          (NPMServer.createProxyHost s now rRefresh rCreate rProxy).2 =
            Except.ok ()) ∧
        (st ≠ 200 → st ≠ 201 → st ≠ 400 →
          (NPMServer.createProxyHost s now rRefresh rCreate rProxy).2 =
            Except.error (NPMError.proxyHostError (some st)))) ∧
      (rProxy = HttpResult.noResponse →
        (NPMServer.createProxyHost s now rRefresh rCreate rProxy).2 =
          Except.error NPMError.networkError)) := by
  cases hev : NPMServer.ensureValidToken s now rRefresh rCreate with
  | mk s1 res =>
    constructor
    · intro e herr
      simp only at herr
      unfold NPMServer.createProxyHost
      rw [hev, herr]
    · intro hok
      simp only at hok
      constructor
      · intro st hr
        constructor
        · intro hst
          unfold NPMServer.createProxyHost
          rw [hev, hok, hr]
          rcases hst with h | h | h <;> simp [h]
        · intro h200 h201 h400
          unfold NPMServer.createProxyHost
          rw [hev, hok, hr]
          have hb1 : (st == 200 || st == 201) = false := by
            simp [h200, h201]
          have hb2 : (st == 400) = false := by simp [h400]
          simp [hb1, hb2]
      · intro hr
        unfold NPMServer.createProxyHost
        rw [hev, hok, hr]

/-- Eligible bridge-mode container exposing no ports. -/
def wNoPorts : ContainerInfo :=
  { Id := "w0", Names := ["/ix-app1-main-1"], serviceLabel := "main",
    projectLabel := "ix-app1", NetworkMode := "bridge", Ports := some [] }

/-- Eligible bridge-mode container exposing 8080 and 443. -/
def wHttps : ContainerInfo :=
  { Id := "w1", Names := ["/ix-app1-web-1"], serviceLabel := "web",
    projectLabel := "ix-app1", NetworkMode := "bridge",
    Ports := some [8080, 443] }

theorem C1_automatic_selection_witness :
    selectAppContainer [wNoPorts] "app1" = none ∧
    proxyApp [wNoPorts] "app1" none none 0 = ProxyOutcome.noTarget ∧
    selectAppContainer [wNoPorts, wHttps] "app1" =
      some { container := wHttps, port := 443, scheme := "https" } :=
  ⟨((C1_automatic_selection [wNoPorts] "app1" none 0).1 (by decide)).1,
   ((C1_automatic_selection [wNoPorts] "app1" none 0).1 (by decide)).2,
   (C1_automatic_selection [wNoPorts, wHttps] "app1" none 0).2.1 wHttps
     (by decide)⟩

/-- Eligible container named `ix-radarr-webui-1` exposing only 3000, so an
override at port 8080 picks a port the container does not expose. -/
def wOvC : ContainerInfo :=
  { Id := "w2", Names := ["/ix-radarr-webui-1"], serviceLabel := "webui",
    projectLabel := "ix-radarr", NetworkMode := "bridge",
    Ports := some [3000] }

theorem C2_override_selection_witness :
    proxyApp [wOvC] "radarr" (some "webui:8080") none 0 =
      ProxyOutcome.proxyCall wOvC
        { domainName := "radarr.example.com", scheme := "http",
          forwardHost := "webui.ix-radarr.svc.cluster.local", port := 8080,
          certificateId := 0 } ∧
    proxyApp [] "radarr" (some "webui:8080") none 0 =
      ProxyOutcome.configError :=
  ⟨(C2_override_selection [wOvC] "radarr" "webui:8080" "webui" 8080 none 0
      (by decide)).1 wOvC (by decide),
   (C2_override_selection [] "radarr" "webui:8080" "webui" 8080 none 0
      (by decide)).2 (by decide)⟩

/-- Server with a stored token valid far beyond the buffer at time 0. -/
def wServerValid : NPMServer :=
  { tokenData := some { token := "tok", expires := 1000000000 },
    credentials := none }

theorem C3_createProxyHost_statuses_witness :
    (NPMServer.createProxyHost wServerValid 0 HttpResult.noResponse
        HttpResult.noResponse (HttpResult.response 500 ())).2 =
      Except.error (NPMError.proxyHostError (some 500)) ∧
    (NPMServer.createProxyHost wServerValid 0 HttpResult.noResponse
        HttpResult.noResponse (HttpResult.response 201 ())).2 =
      Except.ok () ∧
    (NPMServer.createProxyHost wServerValid 0 HttpResult.noResponse
        HttpResult.noResponse (HttpResult.response 400 ())).2 =
      Except.ok () ∧
    (NPMServer.createProxyHost wServerValid 0 HttpResult.noResponse
        HttpResult.noResponse HttpResult.noResponse).2 =
      Except.error NPMError.networkError :=
  ⟨(((C3_createProxyHost_statuses wServerValid 0 HttpResult.noResponse
        HttpResult.noResponse (HttpResult.response 500 ())).2 rfl).1 500
      rfl).2 (by decide) (by decide) (by decide),
   (((C3_createProxyHost_statuses wServerValid 0 HttpResult.noResponse
        HttpResult.noResponse (HttpResult.response 201 ())).2 rfl).1 201
      rfl).1 (Or.inr (Or.inl rfl)),
   (((C3_createProxyHost_statuses wServerValid 0 HttpResult.noResponse
        HttpResult.noResponse (HttpResult.response 400 ())).2 rfl).1 400
      rfl).1 (Or.inr (Or.inr rfl)),
   ((C3_createProxyHost_statuses wServerValid 0 HttpResult.noResponse
        HttpResult.noResponse HttpResult.noResponse).2 rfl).2 rfl⟩

/-- Server holding both a (stale) token and a credential pair. -/
def wServerCred : NPMServer :=
  { tokenData := some { token := "tok", expires := 0 },
    credentials := some ("admin", "secret") }

/-- The fresh token returned by a successful create-token call. -/
def wTok : TokenResponse := { token := "newtok", expires := 2000000 }

theorem C4_refreshToken_fallback_witness :
    NPMServer.refreshToken wServerCred (HttpResult.response 500 wTok)
        (HttpResult.response 201 wTok) =
      ({ wServerCred with
          tokenData := some { token := "newtok", expires := 2000000 } },
       Except.ok wTok) :=
  (((C4_refreshToken_fallback wServerCred (HttpResult.response 500 wTok)
      (HttpResult.response 201 wTok)).2 rfl
      (NPMError.tokenError (some 500)) rfl).1 ("admin", "secret") rfl).1
    201 wTok rfl (Or.inr rfl)

theorem C5_refresh_failure_atomic_witness :
    (NPMServer.refreshToken wServerCred HttpResult.noResponse
        HttpResult.noResponse).1.tokenData =
      some { token := "tok", expires := 0 } :=
  C5_refresh_failure_atomic wServerCred HttpResult.noResponse
    HttpResult.noResponse NPMError.networkError rfl

/-- Server whose stored token expires exactly at the 5-minute buffer
boundary when `now = 0`. -/
def wServerEdge : NPMServer :=
  { tokenData := some { token := "tok", expires := 300000 },
    credentials := none }

theorem C6_validity_boundary_witness :
    NPMServer.ensureValidToken wServerEdge 0 HttpResult.noResponse
        HttpResult.noResponse =
      ((NPMServer.refreshToken wServerEdge HttpResult.noResponse
          HttpResult.noResponse).1,
       (NPMServer.refreshToken wServerEdge HttpResult.noResponse
          HttpResult.noResponse).2.map (fun _ => ())) ∧
    NPMServer.ensureValidToken wServerValid 0 HttpResult.noResponse
        HttpResult.noResponse = (wServerValid, Except.ok ()) :=
  ⟨(C6_validity_boundary wServerEdge 0 HttpResult.noResponse
      HttpResult.noResponse).2.2.2 rfl,
   (C6_validity_boundary wServerValid 0 HttpResult.noResponse
      HttpResult.noResponse).2.2.1 rfl⟩

/-- Container running with host networking. -/
def wHostMode : ContainerInfo :=
  { Id := "w7", Names := ["/ix-app1-hn-1"], serviceLabel := "hn",
    projectLabel := "ix-app1", NetworkMode := "host", Ports := some [80] }

theorem C7_prohibited_modes_ineligible_witness :
    prohibitedNetworkMode wHostMode = true ∧
    eligibleFor "app1" wHostMode = false :=
  ⟨(C7_prohibited_modes_ineligible wHostMode (Or.inr (Or.inl rfl))).1,
   (C7_prohibited_modes_ineligible wHostMode
      (Or.inr (Or.inl rfl))).2.1 "app1"⟩

/-- Eligible container exposing 8080 then 9090 (neither 443 nor 80). -/
def wOther : ContainerInfo :=
  { Id := "w9", Names := ["/ix-app1-svc-1"], serviceLabel := "svc",
    projectLabel := "ix-app1", NetworkMode := "bridge",
    Ports := some [8080, 9090] }

theorem C9_selection_invariant_witness :
    (8080 : Nat) ∈ getOpenPorts wOther ∧
    (("http" : String) = "https" ↔ (8080 : Nat) = 443) :=
  C9_selection_invariant [wOther] "app1"
    { container := wOther, port := 8080, scheme := "http" } (by decide)

/-- Container whose `Ports` array is absent. -/
def wNilPorts : ContainerInfo :=
  { Id := "wA", Names := ["/ix-app1-y-1"], serviceLabel := "y",
    projectLabel := "ix-app1", NetworkMode := "bridge", Ports := none }

theorem C10_missing_ports_total_witness :
    hasOpenPort wNilPorts 80 = false ∧ getOpenPorts wNilPorts = [] :=
  ⟨(C10_missing_ports_total wNilPorts rfl).1 80,
   (C10_missing_ports_total wNilPorts rfl).2.1⟩

theorem C8_end_to_end_radarr_witness :
    getAppName radarrContainer = "radarr" ∧
    selectAppContainer [radarrContainer] "radarr" =
      some { container := radarrContainer, port := 7878, scheme := "http" } ∧
    proxyApp [radarrContainer] "radarr" none (some "mydomain.net") 7 =
      ProxyOutcome.proxyCall radarrContainer
        { domainName := "radarr" ++ "." ++ "mydomain.net",
          scheme := "http",
          forwardHost := "radarr.ix-radarr.svc.cluster.local",
          port := 7878,
          certificateId := 7 } :=
  C8_end_to_end_radarr "mydomain.net" 7
